import Mathlib

/-!
Verification of the Rag-app ingestion pipeline against its specification.

The Python sources under Src/ are shallowly embedded here:
  * models/enums/ResponseEnums.py    -> ResponseSignals
  * helpers/config.py                -> Settings (the fields the core reads)
  * controllers/DataController.py    -> validate_uploaded_file,
                                        get_clean_file_name,
                                        generate_unique_filepath
  * controllers/ProcessController.py -> get_file_extension, get_file_loader,
                                        get_file_content, process_file_content
  * models/db_schemes/data_chunk.py  -> DataChunk validation
  * models/ChunkModel.py             -> insert_many_chunks /
                                        delete_chunks_by_project_id effects
  * routes/data.py                   -> upload_data, process_endpoint

Python strings are Lean Strings, Python ints are Int, a raised Python
exception is an explicit error value (PyFault), and the filesystem and the
chunk collection are passed as explicit state.
-/

namespace RagApp

/-- Uncaught Python exception kinds the embedded code can raise, plus
`configurationError`: the error kind the specification posits for bad
chunking configurations.  No function of the repository raises it; the
constructor exists so that the specification's sentence can be stated. -/
inductive PyFault where
  | attributeError
  | fileNotFoundError
  | valueError
  | validationError
  | configurationError
deriving DecidableEq, Repr

/-- models/enums/ResponseEnums.py, lines 44-56: the nine members of the
ResponseSignals enum, exactly as declared there. -/
inductive ResponseSignals where
  | FILE_VALIDATE_SUCCESS
  | FILE_VALIDATE_FAIL
  | FILE_NOT_FOUND
  | FILE_TYPE_NOT_SUPPORTED
  | FILE_SIZE_EXCEEDED
  | FILE_UPLOAD_SUCCESS
  | FILE_UPLOADED_FAIL
  | FILE_PROCESSING_FAIL
  | FILE_PROCESSING_SUCCESS
deriving DecidableEq, Repr

/-- The string value each enum member carries (ResponseEnums.py). -/
def ResponseSignals.value : ResponseSignals → String
  | .FILE_VALIDATE_SUCCESS => "file validation successful"
  | .FILE_VALIDATE_FAIL => "file validation failed"
  | .FILE_NOT_FOUND => "file not found"
  | .FILE_TYPE_NOT_SUPPORTED => "file type not supported"
  | .FILE_SIZE_EXCEEDED => "file size exceeded"
  | .FILE_UPLOAD_SUCCESS => "file uploaded successfully"
  | .FILE_UPLOADED_FAIL => "file upload failed"
  | .FILE_PROCESSING_FAIL => "file processing failed"
  | .FILE_PROCESSING_SUCCESS => "file processing successful"

/-- Python attribute lookup on the ResponseSignals enum class: the member a
name resolves to, or none (an AttributeError) when ResponseEnums.py declares
no member of that name.  The nine cases are the nine declarations of
ResponseEnums.py, lines 45-56. -/
def responseSignalsMember : String → Option ResponseSignals
  | "FILE_VALIDATE_SUCCESS" => some .FILE_VALIDATE_SUCCESS
  | "FILE_VALIDATE_FAIL" => some .FILE_VALIDATE_FAIL
  | "FILE_NOT_FOUND" => some .FILE_NOT_FOUND
  | "FILE_TYPE_NOT_SUPPORTED" => some .FILE_TYPE_NOT_SUPPORTED
  | "FILE_SIZE_EXCEEDED" => some .FILE_SIZE_EXCEEDED
  | "FILE_UPLOAD_SUCCESS" => some .FILE_UPLOAD_SUCCESS
  | "FILE_UPLOADED_FAIL" => some .FILE_UPLOADED_FAIL
  | "FILE_PROCESSING_FAIL" => some .FILE_PROCESSING_FAIL
  | "FILE_PROCESSING_SUCCESS" => some .FILE_PROCESSING_SUCCESS
  | _ => none

/-- helpers/config.py Settings: the fields the embedded core reads.
FILE_MAX_SIZE is in megabytes. -/
structure Settings where
  FILE_ALLOWED_TYPES : List String
  FILE_MAX_SIZE : Int
  FILE_DEFAULT_CHUNK_SIZE : Int
deriving Repr

/-- DataController.__init__: self.size_scale = 1048576 (MB to bytes). -/
def size_scale : Int := 1048576

/-- DataController.validate_uploaded_file (DataController.py, lines 56-87):
content-type membership in FILE_ALLOWED_TYPES is checked first, then the
size ceiling FILE_MAX_SIZE * size_scale with a strict comparison.  The
source reads file.content_type and file.size and touches nothing else. -/
def validate_uploaded_file (st : Settings) (content_type : String) (size : Int) :
    Bool × String :=
  if content_type ∉ st.FILE_ALLOWED_TYPES then
    (false, ResponseSignals.FILE_TYPE_NOT_SUPPORTED.value)
  else if size > st.FILE_MAX_SIZE * size_scale then
    (false, ResponseSignals.FILE_SIZE_EXCEEDED.value)
  else
    (true, ResponseSignals.FILE_VALIDATE_SUCCESS.value)

/-- Python str.strip() with no argument: leading and trailing whitespace
removed. -/
def pyStrip (l : List Char) : List Char :=
  ((l.dropWhile Char.isWhitespace).reverse.dropWhile Char.isWhitespace).reverse

/-- A character the regex class \w matches (ASCII scope): a letter, a digit
or an underscore. -/
def isWordChar (c : Char) : Bool := c.isAlphanum || c == '_'

/-- DataController.get_clean_file_name (DataController.py, lines 141-163):
re.sub removes every character outside [\w.] from the stripped name
(modelled at ASCII scope), then .replace replaces each remaining space with
an underscore (characterwise, the pattern being a single character). -/
def get_clean_file_name (orig_file_name : String) : String :=
  let stripped := pyStrip orig_file_name.data
  let cleaned := stripped.filter (fun c => isWordChar c || c == '.')
  ⟨cleaned.map (fun c => if c == ' ' then '_' else c)⟩

/-- os.path.join of a directory and a relative name, for the paths this
codebase builds (no trailing separators, no absolute second argument). -/
def pathJoin (dir name : String) : String := dir ++ "/" ++ name

/-- ProjectController.get_project_path / BaseController.files_dir: the
project directory is files_dir joined with project_id (the directory
creation side effect carries no information for these claims). -/
def get_project_path (files_dir project_id : String) : String :=
  pathJoin files_dir project_id

/-- The extension part of os.path.splitext: within the final path segment,
leading dots do not start an extension; otherwise the extension runs from
the last dot to the end (empty when no such dot exists). -/
def splitextExt (p : String) : String :=
  let base := (p.data.reverse.takeWhile (fun c => c != '/')).reverse
  let lead := (base.takeWhile (fun c => c == '.')).length
  let rest := base.drop lead
  let tail := rest.reverse.takeWhile (fun c => c != '.')
  if tail.length == rest.length then "" else ⟨'.' :: tail.reverse⟩

/-- Python str.lower(), characterwise (ASCII scope, which covers the
extension comparisons this code performs). -/
def pyLower (s : String) : String := ⟨s.data.map Char.toLower⟩

/-- ProcessController.get_file_extension (ProcessController.py, line 82):
os.path.splitext(file_id)[1].lower(). -/
def get_file_extension (file_id : String) : String :=
  pyLower (splitextExt file_id)

/-- The two langchain loaders ProcessController.get_file_loader can return,
each holding the path it was constructed with. -/
inductive Loader where
  | textLoader (path : String)
  | pyMuPDFLoader (path : String)
deriving DecidableEq, Repr

/-- One stored file's content as the loaders see it: a text file's bytes
decoded as UTF-8, or a PDF's extracted text per page. -/
inductive FileData where
  | text (content : String)
  | pdf (pages : List String)
deriving DecidableEq, Repr

/-- The filesystem as the processing flow reads it: full path to content. -/
def Fs := List (String × FileData)

/-- Chunk/source metadata: a Python dict of string keys and values as the
loaders emit it. -/
def Metadata := List (String × String)
deriving DecidableEq

/-- A langchain Document: page_content plus a metadata mapping.  The
loaders return lists of these, and so does the text splitter. -/
structure SourceRecord where
  page_content : String
  metadata : Metadata
deriving DecidableEq

/-- ProcessController.get_file_loader (ProcessController.py, lines 84-119):
TXT maps to TextLoader, PDF to PyMuPDFLoader, anything else to None.  The
path handed to the loader is project_path joined with file_id. -/
def get_file_loader (project_path file_id : String) : Option Loader :=
  let file_ext := get_file_extension file_id
  let file_path := pathJoin project_path file_id
  if file_ext == ".txt" then some (.textLoader file_path)
  else if file_ext == ".pdf" then some (.pyMuPDFLoader file_path)
  else none

/-- loader.load() of the external langchain loaders: a missing file raises
(embedded as fileNotFoundError); a text file yields one Document with the
whole content and a source entry; a PDF yields one Document per page with
page metadata. -/
def Loader.load (fs : Fs) : Loader → Except PyFault (List SourceRecord)
  | .textLoader p =>
    match List.lookup p fs with
    | some (.text content) => .ok [⟨content, [("source", p)]⟩]
    | _ => .error .fileNotFoundError
  | .pyMuPDFLoader p =>
    match List.lookup p fs with
    | some (.pdf pages) =>
      .ok ((pages.enum).map fun it =>
        ⟨it.2, [("source", p), ("page", toString it.1)]⟩)
    | _ => .error .fileNotFoundError

/-- ProcessController.get_file_content (ProcessController.py, lines
121-141): loader = get_file_loader(file_id); return loader.load().  The
source performs no None check, so an unsupported extension reaches
None.load() and raises AttributeError; a raised loader exception also
escapes.  Errors of this Except model raised (uncaught) exceptions, not
returned values: the function's only return is the loader's document
list. -/
def get_file_content (fs : Fs) (project_path file_id : String) :
    Except PyFault (List SourceRecord) :=
  match get_file_loader project_path file_id with
  | none => .error .attributeError
  | some loader => loader.load fs

/-- Consecutive character windows of at most `size` characters, each
starting `step` characters after the previous one (so overlapping the
previous window's tail when step < size).  The step = 0 guard keeps the
function total; no theorem of this file exercises it. -/
def hardWindows (size step : Nat) (l : List Char) : List (List Char) :=
  if l.length ≤ size ∨ step = 0 then [l]
  else l.take size :: hardWindows size step (l.drop step)
termination_by l.length
decreasing_by
  simp only [not_or, List.length_drop] at *
  omega

/-- split_text of the external langchain RecursiveCharacterTextSplitter,
as ProcessController configures it (length_function = len): an empty text
yields no chunks, a text of at most chunk_size characters is one chunk,
and a longer text is cut into windows of at most chunk_size characters
with chunk_overlap characters of trailing context (the library prefers
paragraph/line/word boundaries before hard cuts; the hard-cut case of this
model is exact for separator-free text, and no theorem of this file rests
on the boundary placement of longer texts). -/
def splitText (chunk_size chunk_overlap : Int) (s : String) : List String :=
  if s.data.length = 0 then []
  else if (s.data.length : Int) ≤ chunk_size then [s]
  else (hardWindows chunk_size.toNat (chunk_size - chunk_overlap).toNat s.data).map
    (fun l => ⟨l⟩)

/-- create_documents of the external splitter: each text is split
independently, every resulting chunk carries a copy of its source's
metadata, and the flattened order keeps all chunks of text i before those
of text i+1. -/
def create_documents (chunk_size chunk_overlap : Int) (recs : List SourceRecord) :
    List SourceRecord :=
  recs.flatMap fun r =>
    (splitText chunk_size chunk_overlap r.page_content).map fun t => ⟨t, r.metadata⟩

/-- ProcessController.process_file_content (ProcessController.py, lines
143-184): constructs RecursiveCharacterTextSplitter(chunk_size,
chunk_overlap, len) — whose constructor (external langchain TextSplitter)
raises ValueError when chunk_overlap > chunk_size — then returns
create_documents over the records' texts and metadata.  The repository
code itself performs no configuration validation and raises no error of
its own; in particular nothing here can produce
PyFault.configurationError. -/
def process_file_content (chunk_size chunk_overlap : Int)
    (file_content : List SourceRecord) : Except PyFault (List SourceRecord) :=
  if chunk_overlap > chunk_size then .error .valueError
  else .ok (create_documents chunk_size chunk_overlap file_content)

/-- The JSON body of a process request before parsing: each optional field
either present with a value or omitted. -/
structure ProcessRequestBody where
  file_id : Option String
  chunk_size : Option Int
  overlap_size : Option Int
  do_reset : Option Int

/-- routes/schemes/data.py ProcessRequest: the parsed request. -/
structure ProcessRequest where
  file_id : Option String
  chunk_size : Int
  overlap_size : Int
  do_reset : Int

/-- Parsing a body into a ProcessRequest (routes/schemes/data.py, lines
42-48): an omitted field takes the declared default — chunk_size 100,
overlap_size 20, do_reset 0 (file_id defaults to None). -/
def ProcessRequest.parse (b : ProcessRequestBody) : ProcessRequest :=
  ⟨b.file_id, b.chunk_size.getD 100, b.overlap_size.getD 20, b.do_reset.getD 0⟩

/-- The retry loop of DataController.generate_unique_filepath
(DataController.py, lines 126-139): try the current random key; while a
file already exists at project_path/(key + "_" + cleaned), take the next
key from the random stream.  `keys` is the finite prefix of the stream of
generate_random_string results the run consumes; none means the loop is
still running past that prefix. -/
def uniqueLoop (existing : List String) (project_path cleaned : String) :
    List String → Option (String × String)
  | [] => none
  | random_key :: rest =>
    let new_file_path := pathJoin project_path (random_key ++ "_" ++ cleaned)
    if new_file_path ∈ existing then uniqueLoop existing project_path cleaned rest
    else some (new_file_path, random_key ++ "_" ++ cleaned)

/-- DataController.generate_unique_filepath (DataController.py, lines
89-139): clean the original name, then retry random keys until the joined
path hits no existing file, returning (full path, stored name).
`existing` is the set of paths os.path.exists answers true for at call
time. -/
def generate_unique_filepath (keys existing : List String)
    (orig_file_name project_path : String) : Option (String × String) :=
  uniqueLoop existing project_path (get_clean_file_name orig_file_name) keys

/-- MongoDB document ids, abstract. -/
def ObjectId := String
deriving DecidableEq, Repr

/-- A chunk document as stored (models/db_schemes/data_chunk.py): all five
data fields present and validated. -/
structure DataChunk where
  chunk_text : String
  chunk_metadata : Metadata
  chunk_order : Int
  chunk_project_id : ObjectId
  chunk_asset_id : ObjectId
deriving DecidableEq

/-- The keyword arguments a DataChunk(...) call supplies: none for a field
the call leaves out. -/
structure DataChunkArgs where
  chunk_text : String
  chunk_metadata : Metadata
  chunk_order : Int
  chunk_project_id : Option ObjectId
  chunk_asset_id : Option ObjectId

/-- Pydantic validation of a DataChunk(...) call (data_chunk.py, lines
42-51): chunk_text needs min_length 1, chunk_order must be > 0, and
chunk_project_id and chunk_asset_id are required fields with no default —
a call that omits one raises ValidationError. -/
def DataChunk.build (a : DataChunkArgs) : Except PyFault DataChunk :=
  match a.chunk_project_id, a.chunk_asset_id with
  | some p, some asset =>
    if 1 ≤ a.chunk_text.data.length ∧ 0 < a.chunk_order then
      .ok ⟨a.chunk_text, a.chunk_metadata, a.chunk_order, p, asset⟩
    else .error .validationError
  | _, _ => .error .validationError

/-- routes/data.py, lines 157-165 (Step 5): the list comprehension that
turns the splitter's output into DataChunk records — chunk_order = i + 1
over the flattened enumeration, chunk_project_id = project.id, and no
chunk_asset_id argument.  A ValidationError raised at any element aborts
the comprehension. -/
def build_chunk_records (project_oid : ObjectId) (file_chunks : List SourceRecord) :
    Except PyFault (List DataChunk) :=
  (file_chunks.enum).mapM fun ic =>
    DataChunk.build
      ⟨ic.2.page_content, ic.2.metadata, (ic.1 : Int) + 1, some project_oid, none⟩

/-- ChunkModel.insert_many_chunks (ChunkModel.py, lines 112-133): the
records are bulk-written in batches of 100 in list order and the return
value is len(chunks); batching does not reorder, so the effect on the
collection is an append. -/
def insert_many_chunks (collection : List DataChunk) (chunks : List DataChunk) :
    List DataChunk × Nat :=
  (collection ++ chunks, chunks.length)

/-- ChunkModel.delete_chunks_by_project_id (ChunkModel.py, lines 135-150):
delete_many of every document whose chunk_project_id matches; returns the
deleted count. -/
def delete_chunks_by_project_id (collection : List DataChunk)
    (project_id : ObjectId) : List DataChunk × Nat :=
  (collection.filter (fun c => ¬ c.chunk_project_id = project_id),
   (collection.filter (fun c => c.chunk_project_id = project_id)).length)

/-- A project document (models/db_schemes/project.py) once stored: its
Mongo id and its project_id string. -/
structure ProjectRec where
  id : ObjectId
  project_id : String

/-- What an HTTP handler run produces: a JSONResponse with a status code
and string-valued body fields, or a Python exception that escapes the
handler (FastAPI then answers 500). -/
inductive HandlerOutcome where
  | response (status : Nat) (body : List (String × String))
  | uncaught (e : PyFault)
deriving DecidableEq

/-- routes/data.py process_endpoint (lines 109-180), after the project
lookup: extract the file's content (Step 3, exceptions escape), split it
(exceptions escape), answer 400 on zero chunks (Step 4), build the
DataChunk records (Step 5, ValidationError escapes), delete the project's
chunks when do_reset == 1 (Step 6), append the new records (Step 7) and
answer with the inserted count (Step 8).  Returns the outcome and the
chunk collection afterwards. -/
def process_endpoint (fs : Fs) (collection : List DataChunk)
    (project : ProjectRec) (files_dir : String) (req : ProcessRequest) :
    HandlerOutcome × List DataChunk :=
  let project_path := get_project_path files_dir project.project_id
  match get_file_content fs project_path (req.file_id.getD "") with
  | .error e => (.uncaught e, collection)
  | .ok file_content =>
    match process_file_content req.chunk_size req.overlap_size file_content with
    | .error e => (.uncaught e, collection)
    | .ok file_chunks =>
      if file_chunks.length = 0 then
        (.response 400 [("signal", ResponseSignals.FILE_PROCESSING_FAIL.value)],
         collection)
      else
        match build_chunk_records project.id file_chunks with
        | .error e => (.uncaught e, collection)
        | .ok records =>
          let afterReset :=
            if req.do_reset = 1 then
              (delete_chunks_by_project_id collection project.id).1
            else collection
          let inserted := insert_many_chunks afterReset records
          (.response 200
            [("signal", ResponseSignals.FILE_PROCESSING_SUCCESS.value),
             ("inserted_chunks", toString inserted.2)],
           inserted.1)

/-- The upload as the route sees it: original filename, declared
content type, size in bytes. -/
structure UploadedFile where
  filename : String
  content_type : String
  size : Int

/-- Whether the aiofiles write loop of the upload completes or raises. -/
inductive WriteOutcome where
  | ok
  | ioError

/-- routes/data.py upload_data (lines 45-107), after the project lookup:
validate the file (Step 2) and answer 400 with the validation signal on
failure (Step 3); generate the unique path (Step 4; none while the retry
loop has not finished on the given key prefix); write the bytes (Step 5) —
on an exception the except block (Step 6) evaluates
ResponseSignals.FILE_UPLOAD_FAILED, a member lookup that the enum does not
define, so what actually happens there is decided by
responseSignalsMember; on success answer with the signal and file id
(Step 7). -/
def upload_data (st : Settings) (keys existing : List String)
    (file : UploadedFile) (project_id files_dir : String)
    (write : WriteOutcome) : Option HandlerOutcome :=
  let valid := validate_uploaded_file st file.content_type file.size
  if valid.1 = false then
    some (.response 400 [("signal", valid.2)])
  else
    match generate_unique_filepath keys existing file.filename
        (get_project_path files_dir project_id) with
    | none => none
    | some pathAndId =>
      match write with
      | .ioError =>
        match responseSignalsMember "FILE_UPLOAD_FAILED" with
        | some sig => some (.response 400 [("signal", sig.value)])
        | none => some (.uncaught .attributeError)
      | .ok =>
        some (.response 200
          [("signal", ResponseSignals.FILE_UPLOAD_SUCCESS.value),
           ("file_id", pathAndId.2)])

/-! ## Theorems -/

/-- C1 (counterexample): a process request that omits the optional fields
does not parse to the documented defaults chunk_size = 1000 and
overlap_size = 200; the declared defaults of routes/schemes/data.py are
100 and 20. -/
theorem processRequest_documented_defaults_false :
    ¬ ((ProcessRequest.parse ⟨some "doc.txt", none, none, none⟩).chunk_size = 1000 ∧
       (ProcessRequest.parse ⟨some "doc.txt", none, none, none⟩).overlap_size = 200) := by
  decide

/-- C1 (amended): a process request that omits the optional fields parses
with the defaults the schema declares: chunk_size = 100, overlap_size =
20, do_reset = 0. -/
theorem processRequest_omitted_fields_defaults (fid : Option String) :
    ProcessRequest.parse ⟨fid, none, none, none⟩ = ⟨fid, 100, 20, 0⟩ := rfl

/-- C2 (counterexample): at chunk_size = 100 and overlap = 100 (overlap ≥
chunk_size), process_file_content does not fail with a ConfigurationError —
it splits normally. -/
theorem process_overlap_eq_size_not_rejected :
    process_file_content 100 100 [⟨"hello world", []⟩] =
      Except.ok [⟨"hello world", []⟩] ∧
    ¬ process_file_content 100 100 [⟨"hello world", []⟩] =
        Except.error PyFault.configurationError := by
  have h : process_file_content 100 100 [⟨"hello world", []⟩] =
      Except.ok [⟨"hello world", []⟩] := rfl
  exact ⟨h, by rw [h]; simp⟩

/-- C2 (amended): the chunking operation never raises a ConfigurationError
— the repository performs no overlap validation of its own — and the only
configuration rejection is the external splitter constructor's ValueError,
raised exactly when overlap > chunk_size (so overlap = chunk_size is
accepted). -/
theorem process_file_content_config_errors (cs ov : Int) (recs : List SourceRecord) :
    process_file_content cs ov recs ≠ Except.error PyFault.configurationError ∧
    (process_file_content cs ov recs = Except.error PyFault.valueError ↔ ov > cs) := by
  by_cases h : ov > cs
  · simp [process_file_content, h]
  · simp [process_file_content, h]

/-- C6: validation checks content-type membership first and answers
UnsupportedType on failure; with an allowed content type it answers
SizeExceeded exactly when the size strictly exceeds FILE_MAX_SIZE
megabytes (equality passes), and Valid otherwise. -/
theorem validate_uploaded_file_spec (st : Settings) (ct : String) (size : Int) :
    (ct ∉ st.FILE_ALLOWED_TYPES →
      validate_uploaded_file st ct size =
        (false, ResponseSignals.FILE_TYPE_NOT_SUPPORTED.value)) ∧
    (ct ∈ st.FILE_ALLOWED_TYPES → size > st.FILE_MAX_SIZE * 1048576 →
      validate_uploaded_file st ct size =
        (false, ResponseSignals.FILE_SIZE_EXCEEDED.value)) ∧
    (ct ∈ st.FILE_ALLOWED_TYPES → size ≤ st.FILE_MAX_SIZE * 1048576 →
      validate_uploaded_file st ct size =
        (true, ResponseSignals.FILE_VALIDATE_SUCCESS.value)) := by
  unfold validate_uploaded_file size_scale
  refine ⟨fun h => ?_, fun h hs => ?_, fun h hs => ?_⟩
  · rw [if_pos h]
  · rw [if_neg (not_not_intro h), if_pos hs]
  · rw [if_neg (not_not_intro h), if_neg (not_lt.mpr hs)]

/-- Characters that survive the sanitizer's filter are word characters or
dots, hence never whitespace. -/
theorem clean_char_shape (c : Char) (h : (isWordChar c || c == '.') = true) :
    (c.isAlphanum || c == '_' || c == '.') = true ∧ c.isWhitespace = false := by
  constructor
  · simpa [isWordChar, Bool.or_assoc] using h
  · cases hw : c.isWhitespace
    · rfl
    · exfalso
      have hc : ((c = ' ' ∨ c = '\t') ∨ c = '\r') ∨ c = '\n' := by
        simpa [Char.isWhitespace] using hw
      rcases hc with ((rfl | rfl) | rfl) | rfl <;> exact absurd h (by decide)

/-- C7: every character of a sanitized name is alphanumeric, an underscore
or a dot, and never whitespace; sanitizing "my file@2024.txt" gives
"myfile2024.txt" and the empty name stays empty. -/
theorem get_clean_file_name_spec (s : String) (c : Char)
    (hc : c ∈ (get_clean_file_name s).data) :
    ((c.isAlphanum || c == '_' || c == '.') = true ∧ c.isWhitespace = false) ∧
    get_clean_file_name "my file@2024.txt" = "myfile2024.txt" ∧
    get_clean_file_name "" = "" := by
  refine ⟨?_, by decide, by decide⟩
  simp only [get_clean_file_name, List.mem_map] at hc
  obtain ⟨b, hb, rfl⟩ := hc
  have hp := (List.mem_filter.mp hb).2
  have hbne : b ≠ ' ' := fun he => by subst he; exact absurd hp (by decide)
  have hif : (if b == ' ' then '_' else b) = b := by simp [hbne]
  rw [hif]
  exact clean_char_shape b hp

/-- C7 witness: the sanitizer theorem applied at the name "a.txt" and its
character a. -/
theorem get_clean_file_name_spec_witness :
    ((('a'.isAlphanum || 'a' == '_' || 'a' == '.') = true ∧
      'a'.isWhitespace = false) ∧
     get_clean_file_name "my file@2024.txt" = "myfile2024.txt" ∧
     get_clean_file_name "" = "") :=
  get_clean_file_name_spec "a.txt" 'a' (by decide)

/-- C3: content extraction does not return a discriminated result — an
unsupported extension reaches None.load() and raises AttributeError, and a
missing file's loader raises instead of yielding a FileNotFound value
(both exceptions escape, the route has no handler around Step 3). -/
theorem get_file_content_raises_uncaught :
    get_file_content [("files/p1/doc.txt", FileData.text "hello")] "files/p1"
        "file.xyz" = Except.error PyFault.attributeError ∧
    get_file_content [("files/p1/doc.txt", FileData.text "hello")] "files/p1"
        "missing.txt" = Except.error PyFault.fileNotFoundError := ⟨rfl, rfl⟩

/-- C4: the orchestrator's chunk-entity construction supplies no
chunk_asset_id, a required field of the DataChunk schema, so building the
persistable entities raises ValidationError instead of producing entities
that reference the source asset. -/
theorem build_chunk_records_missing_asset :
    build_chunk_records "proj-oid-1"
        [⟨"hello world", [("source", "files/p1/doc.txt")]⟩] =
      Except.error PyFault.validationError := rfl

/-- C5: a validated upload whose disk write raises does not produce the
400 upload-failed response: the except block looks up the enum member
FILE_UPLOAD_FAILED, which ResponseEnums.py does not define (it defines
FILE_UPLOADED_FAIL with that signal string), so an AttributeError escapes
the handler. -/
theorem upload_io_error_uncaught :
    upload_data ⟨["text/plain"], 10, 512000⟩ ["abc123def456"] []
        ⟨"notes.txt", "text/plain", 9⟩ "p1" "files" .ioError =
      some (.uncaught .attributeError) ∧
    responseSignalsMember "FILE_UPLOAD_FAILED" = none ∧
    responseSignalsMember "FILE_UPLOADED_FAIL" = some .FILE_UPLOADED_FAIL ∧
    ResponseSignals.FILE_UPLOADED_FAIL.value = "file upload failed" :=
  ⟨rfl, rfl, rfl, rfl⟩

/-- The retry loop returns a path free at call time, built from the first
key of the stream whose path is free; every earlier key's path was
occupied. -/
theorem uniqueLoop_spec (existing : List String) (dir cleaned : String) :
    ∀ (keys : List String) (r : String × String),
      uniqueLoop existing dir cleaned keys = some r →
      r.1 ∉ existing ∧
      ∃ i : Fin keys.length,
        r.2 = keys.get i ++ "_" ++ cleaned ∧
        r.1 = pathJoin dir r.2 ∧
        ∀ j : Fin keys.length, (j : Nat) < (i : Nat) →
          pathJoin dir (keys.get j ++ "_" ++ cleaned) ∈ existing := by
  intro keys
  induction keys with
  | nil => intro r h; exact absurd h (by simp [uniqueLoop])
  | cons k rest ih =>
    intro r h
    by_cases hmem : pathJoin dir (k ++ "_" ++ cleaned) ∈ existing
    · have h2 : uniqueLoop existing dir cleaned rest = some r := by
        simpa [uniqueLoop, hmem] using h
      obtain ⟨hfree, i, hname, hpath, hprior⟩ := ih r h2
      refine ⟨hfree, ⟨i + 1, Nat.succ_lt_succ i.isLt⟩, by simpa using hname,
        hpath, fun j hj => ?_⟩
      match j, hj with
      | ⟨0, _⟩, _ => simpa using hmem
      | ⟨jj + 1, hlt⟩, hj =>
        have := hprior ⟨jj, by simpa using hlt⟩ (by simpa using hj)
        simpa using this
    · have hr : r = (pathJoin dir (k ++ "_" ++ cleaned), k ++ "_" ++ cleaned) := by
        have := h
        simp [uniqueLoop, hmem] at this
        exact this.symm
      subst hr
      exact ⟨hmem, ⟨0, by simp⟩, by simp, rfl, fun j hj => absurd hj (by simp)⟩

/-- C8: when generate_unique_filepath returns, the returned path exists
nowhere in the directory at call time, the stored name is the final random
key joined to the sanitized original name by an underscore, and every key
tried before the final one collided with an existing file. -/
theorem generate_unique_filepath_spec (keys existing : List String)
    (orig dir : String) (r : String × String)
    (h : generate_unique_filepath keys existing orig dir = some r) :
    r.1 ∉ existing ∧
    ∃ i : Fin keys.length,
      r.2 = keys.get i ++ "_" ++ get_clean_file_name orig ∧
      r.1 = pathJoin dir r.2 ∧
      ∀ j : Fin keys.length, (j : Nat) < (i : Nat) →
        pathJoin dir (keys.get j ++ "_" ++ get_clean_file_name orig) ∈ existing :=
  uniqueLoop_spec existing dir (get_clean_file_name orig) keys r h

/-- The keys a C8 witness run draws from the random stream. -/
def witKeys : List String := ["aaakey", "bbbkey"]

/-- The C8 witness directory state: the first key's path is occupied. -/
def witExisting : List String := ["files/p1/aaakey_a.txt"]

/-- C8 witness: the uniqueness theorem applied to a directory
pre-populated with the first key's path; the loop lands on the second
key. -/
theorem generate_unique_filepath_spec_witness :
    ("files/p1/bbbkey_a.txt", "bbbkey_a.txt").1 ∉ witExisting ∧
    ∃ i : Fin witKeys.length,
      ("files/p1/bbbkey_a.txt", "bbbkey_a.txt").2 =
        witKeys.get i ++ "_" ++ get_clean_file_name "a.txt" ∧
      ("files/p1/bbbkey_a.txt", "bbbkey_a.txt").1 =
        pathJoin "files/p1" ("files/p1/bbbkey_a.txt", "bbbkey_a.txt").2 ∧
      ∀ j : Fin witKeys.length, (j : Nat) < (i : Nat) →
        pathJoin "files/p1" (witKeys.get j ++ "_" ++ get_clean_file_name "a.txt")
          ∈ witExisting :=
  generate_unique_filepath_spec witKeys witExisting "a.txt" "files/p1"
    ("files/p1/bbbkey_a.txt", "bbbkey_a.txt") (by decide)

/-- The filesystem of the C9 scenario: project p1 holds one stored text
file with content. -/
def fs9 : Fs := [("files/p1/doc.txt", FileData.text "hello world")]

/-- The chunk collection before the C9 request: two chunks already stored
for project p1. -/
def prior9 : List DataChunk :=
  [⟨"old one", [("source", "files/p1/old.txt")], 1, "proj-oid-1", "asset-oid-0"⟩,
   ⟨"old two", [("source", "files/p1/old.txt")], 2, "proj-oid-1", "asset-oid-0"⟩]

/-- C9: a process request with do_reset = 1 over a file that yields one
chunk does not delete the prior chunks and insert the new batch — the
entity construction of Step 5 raises ValidationError (no chunk_asset_id)
before the reset deletion of Step 6 runs, and the collection is left
untouched. -/
theorem process_reset_crashes_before_delete :
    process_endpoint fs9 prior9 ⟨"proj-oid-1", "p1"⟩ "files"
        ⟨some "doc.txt", 100, 20, 1⟩ =
      (HandlerOutcome.uncaught PyFault.validationError, prior9) := rfl

/-- C10: a process request whose extraction succeeds and whose chunking
yields zero chunks answers 400 with the processing-fail signal and leaves
the stored chunks exactly as they were — the zero-chunk check of Step 4
runs before the do_reset deletion of Step 6, so not even do_reset = 1
deletes anything. -/
theorem process_zero_chunks_no_write (fs : Fs) (collection : List DataChunk)
    (project : ProjectRec) (files_dir : String) (req : ProcessRequest)
    (content : List SourceRecord)
    (hget : get_file_content fs (get_project_path files_dir project.project_id)
      (req.file_id.getD "") = Except.ok content)
    (hsplit : process_file_content req.chunk_size req.overlap_size content =
      Except.ok []) :
    process_endpoint fs collection project files_dir req =
      (.response 400 [("signal", ResponseSignals.FILE_PROCESSING_FAIL.value)],
       collection) := by
  simp [process_endpoint, hget, hsplit]

/-- The filesystem of the C10 witness: a stored text file with no
content. -/
def fs10 : Fs := [("files/p2/empty.txt", FileData.text "")]

/-- The chunk collection before the C10 witness request: one chunk already
stored for project p2. -/
def prior10 : List DataChunk :=
  [⟨"kept", [("source", "files/p2/old.txt")], 1, "proj-oid-2", "asset-oid-0"⟩]

/-- C10 witness: the zero-chunk theorem applied to an empty stored file
and a do_reset = 1 request; the prior chunk survives. -/
theorem process_zero_chunks_no_write_witness :
    process_endpoint fs10 prior10 ⟨"proj-oid-2", "p2"⟩ "files"
        ⟨some "empty.txt", 100, 20, 1⟩ =
      (.response 400 [("signal", ResponseSignals.FILE_PROCESSING_FAIL.value)],
       prior10) :=
  process_zero_chunks_no_write fs10 prior10 ⟨"proj-oid-2", "p2"⟩ "files"
    ⟨some "empty.txt", 100, 20, 1⟩
    [⟨"", [("source", "files/p2/empty.txt")]⟩] rfl rfl

end RagApp
